import Mathlib

/-!
Verification of the container-certification pipeline (opdev/container-certification).

This file gives a shallow embedding, in Lean, of the parts of the Go source
that the specification's testable properties talk about:

* the check runner and result aggregation of `CraneEngine.ExecuteChecks`
  (internal/crane/crane_engine.go), including `appendUnlessOptional` and
  `tagDigestBindingInfo`;
* the tar extraction target computation of `untar`
  (internal/crane/crane_engine.go), together with a lexical model of Go's
  `filepath.Join`/`filepath.Clean` on rooted paths;
* the policy resolver `GetContainerPolicyExceptions` (internal/exceptions);
* the checklist builder `InitializeContainerChecks` (internal/checks/checks.go);
* the submitter `ContainerCertificationSubmitter.Submit` (internal/submit/submit.go);
* the artifact builders `writeCertImage`, `getBgName` and `writeRPMManifest`
  (internal/crane/crane_engine.go);
* the layer-count check `MaxLayersCheck` (internal/policy).

Go strings that are only carried around are modelled as `String`; strings whose
character structure matters (path names, rpm names) are modelled as `List Char`.
Fallible Go calls are modelled as `Except String` values; Go runtime panics are
modelled with a dedicated `GoResult` type distinguishing panics from returned
errors.
-/

namespace ContainerCert

/-- Classification of one check's Validate call, as made by the loop in
`CraneEngine.ExecuteChecks`: an error return yields Errored, a false boolean
yields Failed, a true boolean yields Passed. -/
inductive Outcome where
  | errored
  | failed
  | passed
deriving DecidableEq, Repr

/-- A check as the engine sees it: its stable name (`Name()`), its metadata
importance level (`Metadata().Level`), and the outcome that its `Validate`
call produces on the run's image. The image is fixed for a run, so the
result of the Validate call is carried as data. -/
structure Check where
  name : String
  level : String
  outcome : Outcome
deriving DecidableEq, Repr

/-- The three result collections accumulated by the loop of
`CraneEngine.ExecuteChecks` (fields Errors, Failed, Passed of plugin.Results). -/
structure Collections where
  errors : List Check
  failed : List Check
  passed : List Check
deriving DecidableEq, Repr

/-- The engine's aggregated results: the three collections plus the overall
verdict (plugin.Results.PassedOverall). -/
structure Results where
  errors : List Check
  failed : List Check
  passed : List Check
  passedOverall : Bool
deriving DecidableEq, Repr

/-- appendUnlessOptional from internal/crane/crane_engine.go: returns the
collection unchanged when the result's check has metadata level "optional",
and appends the result otherwise. -/
def appendUnlessOptional (results : List Check) (result : Check) : List Check :=
  if result.level = "optional" then results else results ++ [result]

/-- One iteration of the check loop in `CraneEngine.ExecuteChecks` (lines
211-251): the Validate outcome routes the check's result into exactly one of
the Errors/Failed/Passed collections via appendUnlessOptional, and the loop
continues with the next check. -/
def runCheck (acc : Collections) (ch : Check) : Collections :=
  match ch.outcome with
  | .errored => { acc with errors := appendUnlessOptional acc.errors ch }
  | .failed => { acc with failed := appendUnlessOptional acc.failed ch }
  | .passed => { acc with passed := appendUnlessOptional acc.passed ch }

/-- The check-execution and aggregation portion of `CraneEngine.ExecuteChecks`:
every check in the list is run in order (no short-circuiting), results are
accumulated starting from empty collections, and PassedOverall is set to false
when the Errors or Failed collection is non-empty, true otherwise
(lines 211-257 of internal/crane/crane_engine.go). -/
def executeChecks (checks : List Check) : Results :=
  let c := checks.foldl runCheck ⟨[], [], []⟩
  { errors := c.errors
    failed := c.failed
    passed := c.passed
    passedOverall := if c.errors.length > 0 ∨ c.failed.length > 0 then false else true }

/-- The checks that land in the collection for outcome `o`: those whose level
is not "optional" and whose Validate call yields `o`. -/
def kept (o : Outcome) (checks : List Check) : List Check :=
  checks.filter (fun c => !(c.level == "optional") && c.outcome == o)

theorem kept_append (o : Outcome) (l1 l2 : List Check) :
    kept o (l1 ++ l2) = kept o l1 ++ kept o l2 := by
  simp [kept, List.filter_append]

theorem foldl_runCheck (checks : List Check) (acc : Collections) :
    checks.foldl runCheck acc =
      ⟨acc.errors ++ kept .errored checks,
       acc.failed ++ kept .failed checks,
       acc.passed ++ kept .passed checks⟩ := by
  induction checks generalizing acc with
  | nil => simp [kept]
  | cons c cs ih =>
    rw [List.foldl_cons, ih]
    cases h : c.outcome <;>
      simp [runCheck, appendUnlessOptional, kept, List.filter_cons, h] <;>
      split <;> simp_all

theorem executeChecks_eq (checks : List Check) :
    executeChecks checks =
      { errors := kept .errored checks
        failed := kept .failed checks
        passed := kept .passed checks
        passedOverall :=
          if (kept .errored checks).length > 0 ∨ (kept .failed checks).length > 0
          then false else true } := by
  simp [executeChecks, foldl_runCheck]

/-- When no check in the list is optional, the kept checks for an outcome are
exactly the checks whose Validate call yields that outcome. -/
theorem kept_of_no_optional (o : Outcome) (checks : List Check)
    (hopt : ∀ c ∈ checks, c.level ≠ "optional") :
    kept o checks = checks.filter (fun c => c.outcome == o) := by
  induction checks with
  | nil => simp [kept]
  | cons c cs ih =>
    have hc : c.level ≠ "optional" := hopt c (by simp)
    have ih' := ih (fun x hx => hopt x (by simp [hx]))
    simp only [kept, List.filter_cons] at *
    have : (!(c.level == "optional")) = true := by
      simp [hc]
    simp [this, ih']

/-- Splitting a list of checks by outcome is exhaustive: the three filtered
lists account for every check exactly once. -/
theorem filter_outcome_length_sum (checks : List Check) :
    (checks.filter (fun c => c.outcome == Outcome.errored)).length +
      (checks.filter (fun c => c.outcome == Outcome.failed)).length +
      (checks.filter (fun c => c.outcome == Outcome.passed)).length =
      checks.length := by
  induction checks with
  | nil => simp
  | cons c cs ih =>
    cases h : c.outcome <;> simp [List.filter_cons, h] <;> omega

/-- C1: for a checklist with no optional checks, ExecuteChecks records every
check, in order, in exactly the collection matching its Validate outcome (so
in particular every check runs, regardless of earlier Errored or Failed
outcomes, and the three collection lengths sum to the number of checks), and
PassedOverall is false exactly when at least one check errored or failed. -/
theorem executeChecks_aggregation (checks : List Check)
    (hopt : ∀ c ∈ checks, c.level ≠ "optional") :
    (executeChecks checks).errors = checks.filter (fun c => c.outcome == Outcome.errored) ∧
    (executeChecks checks).failed = checks.filter (fun c => c.outcome == Outcome.failed) ∧
    (executeChecks checks).passed = checks.filter (fun c => c.outcome == Outcome.passed) ∧
    (executeChecks checks).errors.length + (executeChecks checks).failed.length +
      (executeChecks checks).passed.length = checks.length ∧
    ((executeChecks checks).passedOverall = false ↔
      0 < (checks.filter (fun c => c.outcome == Outcome.errored)).length +
        (checks.filter (fun c => c.outcome == Outcome.failed)).length) := by
  have he := kept_of_no_optional .errored checks hopt
  have hf := kept_of_no_optional .failed checks hopt
  have hp := kept_of_no_optional .passed checks hopt
  rw [executeChecks_eq]
  refine ⟨he, hf, hp, ?_, ?_⟩
  · rw [he, hf, hp]
    exact filter_outcome_length_sum checks
  · rw [he, hf]
    constructor
    · intro h
      split at h
      · next hcond => omega
      · next => exact absurd h (by simp)
    · intro h
      split
      · next => rfl
      · next hcond => push_neg at hcond; omega

/-- Witness for C1 at a concrete three-check run with one error, one failure
and one pass: the collections are the singleton filters, lengths sum to 3,
and the verdict is false. -/
theorem executeChecks_aggregation_witness :
    (∀ c ∈ [Check.mk "a" "best" Outcome.errored,
            Check.mk "b" "good" Outcome.failed,
            Check.mk "c" "best" Outcome.passed], c.level ≠ "optional") ∧
    (executeChecks [Check.mk "a" "best" Outcome.errored,
                    Check.mk "b" "good" Outcome.failed,
                    Check.mk "c" "best" Outcome.passed]).passedOverall = false := by
  refine ⟨by decide, ?_⟩
  have h := executeChecks_aggregation
    [Check.mk "a" "best" Outcome.errored,
     Check.mk "b" "good" Outcome.failed,
     Check.mk "c" "best" Outcome.passed] (by decide)
  exact h.2.2.2.2.mpr (by decide)

/-- C3: a check whose metadata level is "optional" is still part of the
executed checklist, but appendUnlessOptional drops its result whatever its
outcome, so the run's Results — all three collections and PassedOverall —
are identical to those of the same run without the optional check. -/
theorem optional_check_excluded (l1 l2 : List Check) (c : Check)
    (h : c.level = "optional") :
    executeChecks (l1 ++ c :: l2) = executeChecks (l1 ++ l2) := by
  have hc : ∀ o, kept o (l1 ++ c :: l2) = kept o (l1 ++ l2) := by
    intro o
    have hsingle : kept o [c] = [] := by
      simp [kept, List.filter_cons, h]
    calc kept o (l1 ++ c :: l2) = kept o (l1 ++ [c] ++ l2) := by simp
      _ = kept o l1 ++ kept o [c] ++ kept o l2 := by
          rw [kept_append, kept_append]
      _ = kept o l1 ++ kept o l2 := by rw [hsingle]; simp
      _ = kept o (l1 ++ l2) := (kept_append o l1 l2).symm
  rw [executeChecks_eq, executeChecks_eq, hc, hc, hc]

/-- Witness for C3: a failing optional check leaves the run's results exactly
those of the empty run, with a true verdict. -/
theorem optional_check_excluded_witness :
    (Check.mk "opt" "optional" Outcome.failed).level = "optional" ∧
    executeChecks [Check.mk "opt" "optional" Outcome.failed] = executeChecks [] :=
  ⟨rfl, optional_check_excluded [] [] (Check.mk "opt" "optional" Outcome.failed) rfl⟩

/-! ### The layer-count check (internal/policy, MaxLayersCheck) -/

/-- Image layers are opaque to the layer-count check; only their number
matters. -/
def Layer : Type := Unit

/-- acceptableLayerMax from the policy package: the maximum accepted number of
layers. -/
def acceptableLayerMax : Nat := 40

/-- MaxLayersCheck.validate: passes exactly when the image has at most
acceptableLayerMax layers; it never returns an error. -/
def maxLayersValidate (layers : List Layer) : Except String Bool :=
  .ok (decide (layers.length ≤ acceptableLayerMax))

/-- MaxLayersCheck.Name(). -/
def maxLayersCheckName : String := "LayerCountAcceptable"

/-- MaxLayersCheck.Metadata().Level. -/
def maxLayersCheckLevel : String := "better"

/-- How the engine classifies a Validate return value: an error is Errored,
ok false is Failed, ok true is Passed. -/
def classify (v : Except String Bool) : Outcome :=
  match v with
  | .error _ => .errored
  | .ok false => .failed
  | .ok true => .passed

/-- The MaxLayersCheck as the engine sees it for an image with the given
layers: its name, level, and the outcome of its Validate call. -/
def maxLayersCheck (layers : List Layer) : Check :=
  { name := maxLayersCheckName
    level := maxLayersCheckLevel
    outcome := classify (maxLayersValidate layers) }

/-- A run with a non-empty Failed collection has a false overall verdict. -/
theorem passedOverall_false_of_failed_ne_nil (checks : List Check)
    (h : (executeChecks checks).failed ≠ []) :
    (executeChecks checks).passedOverall = false := by
  rw [executeChecks_eq] at h ⊢
  replace h : kept .failed checks ≠ [] := h
  show (if (kept .errored checks).length > 0 ∨ (kept .failed checks).length > 0
      then false else true) = false
  rw [if_pos (Or.inr (by simpa [List.length_pos] using h))]

/-- C7: for an image with a 41-entry layer list, MaxLayersCheck.validate
returns false (it passes iff the count is at most 40), and any run whose
checklist contains the check once (and no other check with its name) puts
exactly one Failed outcome named "LayerCountAcceptable" in the results, with
an overall verdict of false. -/
theorem maxLayers_41_fails (layers : List Layer) (h41 : layers.length = 41)
    (l1 l2 : List Check)
    (h1 : ∀ c ∈ l1, c.name ≠ maxLayersCheckName)
    (h2 : ∀ c ∈ l2, c.name ≠ maxLayersCheckName) :
    maxLayersValidate layers = .ok false ∧
    ((executeChecks (l1 ++ maxLayersCheck layers :: l2)).failed.filter
        (fun c => c.name == maxLayersCheckName)).length = 1 ∧
    (executeChecks (l1 ++ maxLayersCheck layers :: l2)).passedOverall = false := by
  have hv : maxLayersValidate layers = .ok false := by
    simp [maxLayersValidate, h41, acceptableLayerMax]
  have hout : (maxLayersCheck layers).outcome = .failed := by
    simp [maxLayersCheck, hv, classify]
  have hfailed : (executeChecks (l1 ++ maxLayersCheck layers :: l2)).failed =
      kept .failed l1 ++ maxLayersCheck layers :: kept .failed l2 := by
    rw [executeChecks_eq]
    show kept .failed (l1 ++ maxLayersCheck layers :: l2) = _
    calc kept .failed (l1 ++ maxLayersCheck layers :: l2)
        = kept .failed l1 ++ kept .failed (maxLayersCheck layers :: l2) := kept_append ..
      _ = kept .failed l1 ++ maxLayersCheck layers :: kept .failed l2 := by
          have hkeep : (!((maxLayersCheck layers).level == "optional") &&
              ((maxLayersCheck layers).outcome == Outcome.failed)) = true := by
            rw [hout]; rfl
          simp [kept, List.filter_cons, hkeep]
  have hnone : ∀ l : List Check, (∀ c ∈ l, c.name ≠ maxLayersCheckName) →
      (kept .failed l).filter (fun c => c.name == maxLayersCheckName) = [] := by
    intro l hl
    rw [List.filter_eq_nil_iff]
    intro c hc
    have : c ∈ l := List.mem_of_mem_filter hc
    simp [hl c this]
  refine ⟨hv, ?_, ?_⟩
  · rw [hfailed]
    rw [List.filter_append, List.filter_cons]
    simp only [maxLayersCheck, beq_self_eq_true, if_pos]
    rw [hnone l1 h1, hnone l2 h2]
    simp
  · apply passedOverall_false_of_failed_ne_nil
    rw [hfailed]
    simp

/-- Witness for C7: a run consisting of just the layer-count check on a
41-layer image fails that check and the overall verdict. -/
theorem maxLayers_41_fails_witness :
    (List.replicate 41 (() : Layer)).length = 41 ∧
    (executeChecks [maxLayersCheck (List.replicate 41 ())]).passedOverall = false := by
  refine ⟨by simp, ?_⟩
  exact (maxLayers_41_fails (List.replicate 41 ()) (by simp) [] []
    (by simp) (by simp)).2.2

/-! ### Tag and digest binding advisory (crane_engine.go, tagDigestBindingInfo) -/

/-- The digest marker strings.HasPrefix is tested against: "sha256:". -/
def sha256Marker : List Char := ['s', 'h', 'a', '2', '5', '6', ':']

/-- The advisory emitted when the image was provided by digest: no tag will be
associated on submission. -/
def digestProvidedMsg : String :=
  "You\x27ve provided an image by digest. " ++
    "When submitting this image to Red Hat for certification, " ++
    "no tag will be associated with this image. " ++
    "If you would like to associate a tag with this image, " ++
    "please rerun this tool replacing your image reference with a tag."

/-- The binding message emitted when the image was provided by tag: the tag
will be paired with the resolved digest. -/
def tagBindingMsg (providedIdentifier resolvedDigest : String) : String :=
  "This image\x27s tag " ++ providedIdentifier ++
    " will be paired with digest " ++ resolvedDigest ++
    " once this image has been published in accordance " ++
    "with Red Hat Certification policy. " ++
    "You may then add or remove any supplemental tags " ++
    "through your Red Hat Connect portal as you see fit."

/-- tagDigestBindingInfo from internal/crane/crane_engine.go: when the
provided identifier starts with "sha256:" it returns the digest advisory with
warn true; otherwise it returns the tag-to-digest binding message with warn
false. -/
def tagDigestBindingInfo (providedIdentifier resolvedDigest : String) :
    String × Bool :=
  if sha256Marker.isPrefixOf providedIdentifier.toList then
    (digestProvidedMsg, true)
  else
    (tagBindingMsg providedIdentifier resolvedDigest, false)

/-- The tail of `CraneEngine.ExecuteChecks` (lines 253-270): after the
collections and PassedOverall are computed, the tag-digest binding message is
derived from the provided identifier and resolved digest and only logged; the
returned results are those of the check run. -/
def executeChecksWithBinding (checks : List Check)
    (providedIdentifier resolvedDigest : String) : Results × (String × Bool) :=
  (executeChecks checks, tagDigestBindingInfo providedIdentifier resolvedDigest)

/-- C8: the advisory warns (warn true, digest message) exactly when the
provided identifier is prefixed "sha256:", and otherwise reports the
tag-to-digest binding with warn false; the run's results, PassedOverall
included, do not depend on the identifier or digest fed to the advisory. -/
theorem tagDigestBindingInfo_spec (providedIdentifier resolvedDigest : String)
    (checks : List Check) (id2 dig2 : String) :
    (tagDigestBindingInfo providedIdentifier resolvedDigest).2 =
      sha256Marker.isPrefixOf providedIdentifier.toList ∧
    (tagDigestBindingInfo providedIdentifier resolvedDigest).1 =
      (if sha256Marker.isPrefixOf providedIdentifier.toList then digestProvidedMsg
       else tagBindingMsg providedIdentifier resolvedDigest) ∧
    (executeChecksWithBinding checks providedIdentifier resolvedDigest).1 =
      (executeChecksWithBinding checks id2 dig2).1 := by
  refine ⟨?_, ?_, rfl⟩ <;>
    · unfold tagDigestBindingInfo
      split <;> simp_all [Bool.eq_false_iff, List.isPrefixOf_iff_prefix]

/-! ### Archive extraction (crane_engine.go, untar)

The extraction destination is an absolute directory, so paths are modelled as
their component lists under the filesystem root. Go's filepath.Join
concatenates its arguments with the separator and then applies filepath.Clean;
for a rooted path, Clean lexically removes empty and "." elements and resolves
each ".." against the preceding element, dropping ".." elements that reach the
root. -/

/-- Split a Go string on a separator character; faithful to strings.Split with
a one-character separator (the empty string splits to one empty field). -/
def splitOnChar (sep : Char) : List Char → List (List Char)
  | [] => [[]]
  | c :: rest =>
    if c = sep then [] :: splitOnChar sep rest
    else
      match splitOnChar sep rest with
      | [] => [[c]]
      | h :: t => (c :: h) :: t

/-- filepath.Clean on the element list of a rooted path, processing elements
left to right against the stack of elements already kept: empty and "."
elements are dropped, ".." pops the previously kept element (and is dropped
at the root), any other element is kept. -/
def cleanRootedAux (acc : List (List Char)) : List (List Char) → List (List Char)
  | [] => acc
  | e :: rest =>
    if e = [] ∨ e = ['.'] then cleanRootedAux acc rest
    else if e = ['.', '.'] then cleanRootedAux acc.dropLast rest
    else cleanRootedAux (acc ++ [e]) rest

/-- filepath.Clean of a rooted path given by its element list. -/
def cleanRooted (elems : List (List Char)) : List (List Char) :=
  cleanRootedAux [] elems

/-- filepath.Join(dst, name) for a rooted destination dst: the name is split
on the path separator, appended to the destination elements, and the joined
path is Cleaned (Go's filepath.Join always Cleans its result). -/
def filepathJoin (dst : List (List Char)) (name : List Char) : List (List Char) :=
  cleanRooted (dst ++ splitOnChar '/' name)

/-- The file types untar handles: directories, regular files and symlinks. -/
inductive TarType where
  | dir
  | reg
  | symlink
deriving DecidableEq, Repr

/-- A tar entry header as consumed by untar: its name, type flag and (for
symlinks) link target. -/
structure TarHeader where
  name : List Char
  typeflag : TarType
  linkname : List Char
deriving DecidableEq, Repr

/-- The target path at which untar creates the filesystem object for one
archive entry (crane_engine.go line 334): filepath.Join of the destination
root and the header name, with no containment check. Directories, regular
files and symlinks are all created at this target (lines 341-373). -/
def untarTarget (dst : List (List Char)) (header : TarHeader) :
    List (List Char) :=
  filepathJoin dst header.name

/-- The paths at which untar creates filesystem objects for an archive, one
per entry, in order. -/
def untarWrites (dst : List (List Char)) (entries : List TarHeader) :
    List (List (List Char)) :=
  entries.map (untarTarget dst)

/-- A rooted path lies within a rooted directory when the directory's
elements are a prefix of the path's elements. -/
def isWithin (root target : List (List Char)) : Bool :=
  root.isPrefixOf target

/-- C2 failing input: for the destination directory /dst and an archive whose
single regular-file entry is named "../evil", untar creates the file at
/evil — filepath.Join resolves the ".." lexically and the resulting target
escapes the destination root, so extraction does not fail closed. -/
theorem untar_traversal_escape :
    untarWrites [['d', 's', 't']]
        [{ name := ['.', '.', '/', 'e', 'v', 'i', 'l'],
           typeflag := TarType.reg, linkname := [] }] =
      [[['e', 'v', 'i', 'l']]] ∧
    isWithin [['d', 's', 't']] [['e', 'v', 'i', 'l']] = false := by
  decide

/-! ### Policies, project records, and the policy resolver -/

/-- Modelled from the spec: the policy package (its declarations are not under
src/, only its uses) defines Policy as a string type with three named values —
the standard container policy, the root-exception policy, and the scratch
policy. -/
abbrev Policy := String

/-- Modelled from the spec: the standard container policy value. -/
def policyContainer : Policy := "container"

/-- Modelled from the spec: the root-exception policy value. -/
def policyRoot : Policy := "root"

/-- Modelled from the spec: the scratch policy value. -/
def policyScratch : Policy := "scratch"

/-- The Container sub-record of a pyxis certification project, with the fields
the sources read: the docker config blob, the hosted-registry marker and the
privileged (host level access) flag. -/
structure CertProjectContainer where
  dockerConfigJSON : String
  hostedRegistry : Bool
  privileged : Bool
deriving DecidableEq, Repr

/-- A pyxis certification project record as fetched from the remote
authority. The pyxis package is not under src/; the scratch marker is
modelled from the spec as a project attribute. -/
structure CertProject where
  name : String
  scratchType : Bool
  container : CertProjectContainer
deriving DecidableEq, Repr

/-- Modelled from the spec: pyxis.CertProject.ScratchProject (the pyxis
package is not under src/) reports whether the project is marked as a
scratch-type project. -/
def CertProject.scratchProject (p : CertProject) : Bool :=
  p.scratchType

/-- GetContainerPolicyExceptions from internal/exceptions: fetches the project
record, propagates a fetch failure, and otherwise returns the scratch policy
for scratch projects, the root-exception policy for privileged projects, and
the standard container policy for everything else. -/
def getContainerPolicyExceptions (fetch : Except String CertProject) :
    Except String Policy :=
  match fetch with
  | .error e => .error ("could not retrieve project: " ++ e)
  | .ok certProject =>
    if certProject.scratchProject then .ok policyScratch
    else if certProject.container.privileged then .ok policyRoot
    else .ok policyContainer

/-- C4: for every successfully fetched project record, the resolver returns
the scratch policy whenever the project is scratch-type (the privileged flag
is irrelevant), the root-exception policy whenever the project is privileged
but not scratch-type, and the standard container policy otherwise. -/
theorem getContainerPolicyExceptions_spec (nm dcj : String)
    (hosted scratch priv : Bool) :
    getContainerPolicyExceptions
        (.ok { name := nm, scratchType := scratch,
               container := { dockerConfigJSON := dcj,
                              hostedRegistry := hosted,
                              privileged := priv } }) =
      .ok (if scratch then policyScratch
           else if priv then policyRoot
           else policyContainer) := by
  cases scratch <;> cases priv <;> rfl

/-! ### The checklist builder (internal/checks/checks.go) -/

/-- The check implementations that InitializeContainerChecks can place in a
checklist, one identifier per constructor appearing in checks.go. -/
inductive CheckId where
  | hasLicense
  | hasUniqueTag
  | maxLayers
  | hasNoProhibitedPackages
  | hasRequiredLabels
  | runAsNonRoot
  | hasModifiedFiles
  | basedOnUbi
deriving DecidableEq, Repr

/-- ContainerCheckConfig from internal/checks/checks.go. -/
structure ContainerCheckConfig where
  dockerConfig : String
  pyxisAPIToken : String
  certificationProjectID : String
  pyxisHost : String
deriving DecidableEq, Repr

/-- InitializeContainerChecks from internal/checks/checks.go: the switch over
the policy returning the ordered checklist for each of the three policies,
and an error for any other policy value. -/
def initializeContainerChecks (p : Policy) (_cfg : ContainerCheckConfig) :
    Except String (List CheckId) :=
  if p = policyContainer then
    .ok [.hasLicense, .hasUniqueTag, .maxLayers, .hasNoProhibitedPackages,
         .hasRequiredLabels, .runAsNonRoot, .hasModifiedFiles, .basedOnUbi]
  else if p = policyRoot then
    .ok [.hasLicense, .hasUniqueTag, .maxLayers, .hasNoProhibitedPackages,
         .hasRequiredLabels, .hasModifiedFiles, .basedOnUbi]
  else if p = policyScratch then
    .ok [.hasLicense, .hasUniqueTag, .maxLayers, .hasRequiredLabels,
         .runAsNonRoot]
  else
    .error ("provided container policy " ++ p ++ " is unknown")

/-- The checklist of the standard container policy, used as the reference
list for the subset relations of the other two policies. -/
def containerChecklist : List CheckId :=
  [.hasLicense, .hasUniqueTag, .maxLayers, .hasNoProhibitedPackages,
   .hasRequiredLabels, .runAsNonRoot, .hasModifiedFiles, .basedOnUbi]

/-- C5: the builder returns a fixed ordered checklist for each recognized
policy — the root-exception list is the standard list without the
runs-as-non-root check, the scratch list is the standard list without the
package-inventory-dependent checks (prohibited packages, modified files) and
the base-image-lineage check — and errors on every unrecognized policy value
instead of defaulting. -/
theorem initializeContainerChecks_spec (cfg : ContainerCheckConfig)
    (p : Policy) (h1 : p ≠ policyContainer) (h2 : p ≠ policyRoot)
    (h3 : p ≠ policyScratch) :
    initializeContainerChecks policyContainer cfg = .ok containerChecklist ∧
    initializeContainerChecks policyRoot cfg =
      .ok (containerChecklist.filter (fun c => c ≠ CheckId.runAsNonRoot)) ∧
    initializeContainerChecks policyScratch cfg =
      .ok (containerChecklist.filter (fun c =>
        c ≠ CheckId.hasNoProhibitedPackages ∧ c ≠ CheckId.hasModifiedFiles ∧
          c ≠ CheckId.basedOnUbi)) ∧
    initializeContainerChecks p cfg =
      .error ("provided container policy " ++ p ++ " is unknown") := by
  refine ⟨by rfl, by rfl, by rfl, ?_⟩
  simp [initializeContainerChecks, h1, h2, h3]

/-- Witness for C5 at the unrecognized policy value "operator": the builder
returns the fatal configuration error. -/
theorem initializeContainerChecks_spec_witness :
    initializeContainerChecks "operator"
        { dockerConfig := "", pyxisAPIToken := "",
          certificationProjectID := "", pyxisHost := "" } =
      .error ("provided container policy operator is unknown") := by
  have h := initializeContainerChecks_spec
    { dockerConfig := "", pyxisAPIToken := "",
      certificationProjectID := "", pyxisHost := "" }
    "operator" (by decide) (by decide) (by decide)
  simpa using h.2.2.2

/-! ### The submitter (internal/submit/submit.go)

Submit is modelled over an environment that records the outcome of each
call it makes in order: the pyxis project fetch, the docker-config read, the
artifact-writer lookup, the os.Open of each artifact file, the certification
input assembly, and the pyxis submission. The network calls it performs are
returned as an ordered trace alongside the result. -/

/-- The network calls Submit can make against the remote authority. -/
inductive NetEvent where
  | getProject
  | submitResults
deriving DecidableEq, Repr

/-- Whether an Except value is a success. -/
def exIsOk {α : Type} : Except String α → Bool
  | .ok _ => true
  | .error _ => false

/-- DefaultCertImageFilename from internal/defaults/defaults.go. -/
def defaultCertImageFilename : String := "cert-image.json"

/-- DefaultRPMManifestFilename from internal/defaults/defaults.go. -/
def defaultRPMManifestFilename : String := "rpm-manifest.json"

/-- DefaultTestResultsFilename from internal/defaults/defaults.go. -/
def defaultTestResultsFilename : String := "results.json"

/-- The environment of one Submit call: the configured docker-config path and
log file name, and the outcome of each external operation Submit performs, in
the order the code performs them. A missing artifact file shows up as an
error from the corresponding os.Open. -/
structure SubmitEnv where
  getProject : Except String (Option CertProject)
  dockerConfig : String
  readDockerConfig : Except String String
  artifactWriterOk : Bool
  certImageOpen : Except String Unit
  preflightResultsOpen : Except String Unit
  preflightLogFile : String
  logfileOpen : Except String Unit
  rpmManifestOpen : Except String Unit
  newCertificationInput : Except String Unit
  submitResults : Except String String

/-- The policy Submit derives for the fetched project (submit.go lines
153-157): the container policy, downgraded to scratch for scratch projects. -/
def submitPolicy (certProject : CertProject) : Policy :=
  if certProject.scratchProject then policyScratch else policyContainer

/-- ContainerCertificationSubmitter.Submit from internal/submit/submit.go:
fetches the project record (a network call), fails if the fetch errors or
returns no project, reads the docker config when a path is configured,
requires the filesystem artifact writer, opens the certification-image
record, the results report, the log file, and — when the project is not
scratch — the package manifest, assembles the certification input, and only
then performs the submission network call, returning the certified image
identifier. The first component of the result is the ordered trace of
network calls made. -/
def submit (s : SubmitEnv) : List NetEvent × Except String String :=
  match s.getProject with
  | .error e => ([.getProject], .error ("could not retrieve project: " ++ e))
  | .ok none =>
    ([.getProject], .error "no certification project was returned from pyxis")
  | .ok (some certProject) =>
    match (if s.dockerConfig ≠ "" then s.readDockerConfig else .ok "") with
    | .error e =>
      ([.getProject], .error ("could not open file for submission: " ++
        s.dockerConfig ++ ": " ++ e))
    | .ok dockerConfigJSONBytes =>
      let _dockerConfigJSON :=
        if certProject.container.hostedRegistry then ""
        else if s.dockerConfig ≠ "" then dockerConfigJSONBytes else ""
      if s.artifactWriterOk = false then
        ([.getProject], .error ("the artifact writer was either missing or " ++
          "was not supported, so results cannot be submitted"))
      else
        match s.certImageOpen with
        | .error e =>
          ([.getProject], .error ("could not open file for submission: " ++
            defaultCertImageFilename ++ ": " ++ e))
        | .ok _ =>
        match s.preflightResultsOpen with
        | .error e =>
          ([.getProject], .error ("could not open file for submission: " ++
            defaultTestResultsFilename ++ ": " ++ e))
        | .ok _ =>
        match s.logfileOpen with
        | .error e =>
          ([.getProject], .error ("could not open file for submission: " ++
            s.preflightLogFile ++ ": " ++ e))
        | .ok _ =>
        match (if submitPolicy certProject ≠ policyScratch
               then s.rpmManifestOpen else .ok ()) with
        | .error e =>
          ([.getProject], .error ("could not open file for submission: " ++
            defaultRPMManifestFilename ++ ": " ++ e))
        | .ok _ =>
        match s.newCertificationInput with
        | .error e =>
          ([.getProject], .error ("unable to finalize data that would be " ++
            "sent to pyxis: " ++ e))
        | .ok _ =>
        match s.submitResults with
        | .error e =>
          ([.getProject, .submitResults],
           .error ("could not submit to pyxis: " ++ e))
        | .ok certImageID => ([.getProject, .submitResults], .ok certImageID)

/-- A non-scratch, non-privileged project record hosted outside Red Hat. -/
def plainProject : CertProject :=
  { name := "proj"
    scratchType := false
    container := { dockerConfigJSON := "", hostedRegistry := false,
                   privileged := false } }

/-- A submission environment in which everything is in place except that the
certification-image record file is missing from disk. -/
def submitEnvMissingCertImage : SubmitEnv :=
  { getProject := .ok (some plainProject)
    dockerConfig := ""
    readDockerConfig := .ok ""
    artifactWriterOk := true
    certImageOpen := .error "file does not exist"
    preflightResultsOpen := .ok ()
    preflightLogFile := "preflight.log"
    logfileOpen := .ok ()
    rpmManifestOpen := .ok ()
    newCertificationInput := .ok ()
    submitResults := .ok "63e3e8bd1b132abc12345678" }

/-- C6 counterexample: with the certification-image record missing from disk
Submit does return an error, but not before any network call — the project
re-fetch network call has already been made when the missing file is
discovered, because Submit fetches the project before touching the disk. -/
theorem submit_missing_file_after_network_call :
    exIsOk (submit submitEnvMissingCertImage).2 = false ∧
    (submit submitEnvMissingCertImage).1 = [NetEvent.getProject] ∧
    (submit submitEnvMissingCertImage).1 ≠ [] := by
  refine ⟨rfl, rfl, by decide⟩

/-- C6 amended: whenever one of the required artifact files is missing (the
package manifest being required only when the fetched project is not
scratch), or the project record cannot be re-fetched (fetch error or no
project returned), Submit returns an error and the bundle-submission network
call is never made — though the project re-fetch network call may already
have happened. -/
theorem submit_fails_without_submission (s : SubmitEnv)
    (h : (∃ e, s.certImageOpen = .error e) ∨
         (∃ e, s.preflightResultsOpen = .error e) ∨
         (∃ e, s.logfileOpen = .error e) ∨
         (∃ e p, s.rpmManifestOpen = .error e ∧
            s.getProject = .ok (some p) ∧ p.scratchProject = false) ∨
         (∃ e, s.getProject = .error e) ∨
         s.getProject = .ok none) :
    exIsOk (submit s).2 = false ∧ NetEvent.submitResults ∉ (submit s).1 := by
  rcases h with ⟨e, he⟩ | ⟨e, he⟩ | ⟨e, he⟩ | ⟨e, p, he, hp, hs⟩ | ⟨e, he⟩ | he <;>
    · unfold submit
      repeat' split
      all_goals
        simp_all [exIsOk, submitPolicy, policyContainer, policyScratch]

/-- Witness for C6 amended, at the concrete environment with the
certification-image record missing: Submit errors and never submits. -/
theorem submit_fails_without_submission_witness :
    exIsOk (submit submitEnvMissingCertImage).2 = false ∧
    NetEvent.submitResults ∉ (submit submitEnvMissingCertImage).1 :=
  submit_fails_without_submission submitEnvMissingCertImage
    (Or.inl ⟨"file does not exist", rfl⟩)

/-! ### Building the certification image record (crane_engine.go, writeCertImage)

Go runtime panics are distinguished from returned errors with a dedicated
result type, since writeCertImage indexes a slice without a bounds check. -/

/-- The result of a Go function that can return a value, return an error, or
panic. -/
inductive GoResult (α : Type) where
  | ok (val : α)
  | err (msg : String)
  | panicked (msg : String)
deriving DecidableEq, Repr

/-- RootFS of a container image config: the ordered layer diff IDs. -/
structure RootFS where
  diffIDs : List String
deriving DecidableEq, Repr

/-- The runtime config section of an image config file (labels and command). -/
structure ConfigConfig where
  labels : List (String × String)
  cmd : List String
deriving DecidableEq, Repr

/-- An image config file, with the fields writeCertImage reads. -/
structure ConfigFile where
  architecture : String
  created : String
  dockerVersion : String
  os : String
  config : ConfigConfig
  rootFS : RootFS
deriving DecidableEq, Repr

/-- An image manifest: the config descriptor digest and the layer digests. -/
structure Manifest where
  configDigest : String
  layerDigests : List String
deriving DecidableEq, Repr

/-- pyxis.Layer: a layer diff ID with its uncompressed size. -/
structure PyxisLayer where
  layerID : String
  size : Int
deriving DecidableEq, Repr

/-- pyxis.Label. -/
structure PyxisLabel where
  name : String
  value : String
deriving DecidableEq, Repr

/-- pyxis.Tag. -/
structure PyxisTag where
  addedDate : String
  name : String
deriving DecidableEq, Repr

/-- pyxis.Repository. -/
structure PyxisRepository where
  pushDate : String
  registry : String
  repository : String
  tags : List PyxisTag
deriving DecidableEq, Repr

/-- pyxis.ParsedData, with the fields writeCertImage fills. -/
structure ParsedData where
  architecture : String
  command : String
  created : String
  dockerVersion : String
  imageID : String
  labels : List PyxisLabel
  layers : List String
  os : String
  size : Int
  uncompressedLayerSizes : List PyxisLayer
deriving DecidableEq, Repr

/-- pyxis.CertImage, with the fields writeCertImage fills. -/
structure CertImage where
  dockerImageDigest : String
  dockerImageID : String
  imageID : String
  architecture : String
  parsedData : ParsedData
  rawConfig : String
  repositories : List PyxisRepository
  sumLayerSizeBytes : Int
  uncompressedTopLayerID : String
deriving DecidableEq, Repr

/-- A pulled image handle as writeCertImage queries it: each accessor carries
its possible failure. layerUncompressedSize folds the LayerByDiffID,
Uncompressed and io.Copy discard-and-count steps for one diff ID into a
single fallible size computation. -/
structure ImageHandle where
  configFile : Except String ConfigFile
  manifest : Except String Manifest
  digest : Except String String
  rawConfigFile : Except String String
  size : Except String Int
  layerUncompressedSize : String → Except String Int

/-- plugin.ImageReference as used by writeCertImage: the image handle plus the
parsed reference fields. -/
structure ImageRef where
  imageRegistry : String
  imageRepository : String
  imageTagOrSha : String
  imageInfo : ImageHandle

/-- The per-diff-ID loop of writeCertImage: computes each layer's uncompressed
size in order, propagating the first failure. -/
def collectLayerSizes (h : ImageHandle) : List String → Except String (List PyxisLayer)
  | [] => .ok []
  | d :: rest =>
    match h.layerUncompressedSize d with
    | .error e => .error e
    | .ok written =>
      match collectLayerSizes h rest with
      | .error e => .error e
      | .ok tail => .ok ({ layerID := d, size := written } :: tail)

/-- sumLayerSizeBytes from crane_engine.go. -/
def sumLayerSizeBytes (layers : List PyxisLayer) : Int :=
  layers.foldl (fun sum layer => sum + layer.size) 0

/-- convertLabels from crane_engine.go. -/
def convertLabels (imageLabels : List (String × String)) : List PyxisLabel :=
  imageLabels.map (fun kv => { name := kv.1, value := kv.2 })

/-- writeCertImage from internal/crane/crane_engine.go: queries config file,
manifest, digest, raw config and size (each failure returned as a wrapped
error), computes per-layer uncompressed sizes, and assembles the
pyxis.CertImage record — whose UncompressedTopLayerID field unconditionally
indexes the first element of config.RootFS.DiffIDs, a runtime panic when the
image has no layers. The addedDate parameter stands for the wall-clock
timestamp taken during the build. -/
def writeCertImage (imageRef : ImageRef) (addedDate : String) :
    GoResult CertImage :=
  match imageRef.imageInfo.configFile with
  | .error e => .err ("failed to get image config file: " ++ e)
  | .ok config =>
  match imageRef.imageInfo.manifest with
  | .error e => .err ("failed to get image manifest: " ++ e)
  | .ok manifest =>
  match imageRef.imageInfo.digest with
  | .error e => .err ("failed to get image digest: " ++ e)
  | .ok digest =>
  match imageRef.imageInfo.rawConfigFile with
  | .error e => .err ("failed to image raw config file: " ++ e)
  | .ok rawConfig =>
  match imageRef.imageInfo.size with
  | .error e => .err ("failed to get image size: " ++ e)
  | .ok size =>
  match collectLayerSizes imageRef.imageInfo config.rootFS.diffIDs with
  | .error e => .err e
  | .ok layerSizes =>
  let labels := convertLabels config.config.labels
  let manifestLayers := manifest.layerDigests
  let sumLayersSizeBytes := sumLayerSizeBytes layerSizes
  let tags : List PyxisTag := [{ addedDate := addedDate, name := imageRef.imageTagOrSha }]
  let repositories : List PyxisRepository :=
    [{ pushDate := addedDate
       registry := imageRef.imageRegistry
       repository := imageRef.imageRepository
       tags := tags }]
  match config.rootFS.diffIDs with
  | [] => .panicked "runtime error: index out of range [0] with length 0"
  | topDiffID :: _ =>
    .ok { dockerImageDigest := digest
          dockerImageID := manifest.configDigest
          imageID := digest
          architecture := config.architecture
          parsedData :=
            { architecture := config.architecture
              command := String.intercalate " " config.config.cmd
              created := config.created
              dockerVersion := config.dockerVersion
              imageID := digest
              labels := labels
              layers := manifestLayers
              os := config.os
              size := size
              uncompressedLayerSizes := layerSizes }
          rawConfig := rawConfig
          repositories := repositories
          sumLayerSizeBytes := sumLayersSizeBytes
          uncompressedTopLayerID := topDiffID }

/-- C9: for every image whose config lists no layer diff IDs, writeCertImage
panics on the out-of-range index for the uncompressed-top-layer field instead
of returning an error, provided the preceding metadata accessors succeed. -/
theorem writeCertImage_panics_on_no_layers (imageRef : ImageRef)
    (addedDate : String) (config : ConfigFile) (m : Manifest)
    (d rc : String) (sz : Int)
    (hc : imageRef.imageInfo.configFile = .ok config)
    (hdiff : config.rootFS.diffIDs = [])
    (hm : imageRef.imageInfo.manifest = .ok m)
    (hd : imageRef.imageInfo.digest = .ok d)
    (hr : imageRef.imageInfo.rawConfigFile = .ok rc)
    (hs : imageRef.imageInfo.size = .ok sz) :
    writeCertImage imageRef addedDate =
      .panicked "runtime error: index out of range [0] with length 0" := by
  simp only [writeCertImage, hc, hm, hd, hr, hs, hdiff, collectLayerSizes]

/-- A concrete image handle for a zero-layer image whose metadata accessors
all succeed. -/
def zeroLayerImageRef : ImageRef :=
  { imageRegistry := "registry.example.com"
    imageRepository := "ns/zero"
    imageTagOrSha := "v1"
    imageInfo :=
      { configFile := .ok
          { architecture := "amd64"
            created := "2023-01-01 00:00:00 +0000 UTC"
            dockerVersion := ""
            os := "linux"
            config := { labels := [], cmd := [] }
            rootFS := { diffIDs := [] } }
        manifest := .ok { configDigest := "sha256:cfg", layerDigests := [] }
        digest := .ok "sha256:img"
        rawConfigFile := .ok "\x7b\x7d"
        size := .ok 123
        layerUncompressedSize := fun _ => .error "no layers" } }

/-- Witness for C9 at the concrete zero-layer image: the record build panics. -/
theorem writeCertImage_panics_on_no_layers_witness :
    writeCertImage zeroLayerImageRef "2023-01-01T00:00:00Z" =
      .panicked "runtime error: index out of range [0] with length 0" :=
  writeCertImage_panics_on_no_layers zeroLayerImageRef "2023-01-01T00:00:00Z"
    { architecture := "amd64"
      created := "2023-01-01 00:00:00 +0000 UTC"
      dockerVersion := ""
      os := "linux"
      config := { labels := [], cmd := [] }
      rootFS := { diffIDs := [] } }
    { configDigest := "sha256:cfg", layerDigests := [] }
    "sha256:img" "\x7b\x7d" 123 rfl rfl rfl rfl rfl rfl

/-! ### Building the package manifest (crane_engine.go, getBgName and
writeRPMManifest) -/

/-- Join a list of dash-separated parts back together; faithful to
strings.Join with the "-" separator. -/
def intercalateChar (sep : Char) : List (List Char) → List Char
  | [] => []
  | [x] => x
  | x :: xs => x ++ sep :: intercalateChar sep xs

/-- Whether a character is an ASCII digit, as the character class [0-9]. -/
def isDigitChar (c : Char) : Bool :=
  '0' ≤ c && c ≤ '9'

/-- FindString for the pattern (-[0-9].*): the leftmost suffix starting with
a dash followed by a digit, or none when the pattern does not match. -/
def findDashDigitSuffix : List Char → Option (List Char)
  | [] => none
  | c :: rest =>
    if (c == '-') && (match rest with | d :: _ => isDigitChar d | [] => false) then
      some (c :: rest)
    else findDashDigitSuffix rest

/-- strings.TrimSuffix on character lists. -/
def trimSuffixL (s sfx : List Char) : List Char :=
  if sfx.isSuffixOf s then s.take (s.length - sfx.length) else s

/-- strings.TrimPrefix on character lists. -/
def trimPrefixL (s pre : List Char) : List Char :=
  if pre.isPrefixOf s then s.drop pre.length else s

/-- The literal part of the PGP key pattern ".*, Key ID (.*)". -/
def keyIDMarker : List Char := [',', ' ', 'K', 'e', 'y', ' ', 'I', 'D', ' ']

/-- FindStringSubmatch capture for ".*, Key ID (.*)": everything after the
last occurrence of the ", Key ID " marker (the leading greedy .* consumes as
much as possible), or none when the marker does not occur. -/
def afterLastMarker (marker : List Char) : List Char → Option (List Char)
  | [] => none
  | c :: rest =>
    match afterLastMarker marker rest with
    | some sfx => some sfx
    | none =>
      if marker.isPrefixOf (c :: rest) then some ((c :: rest).drop marker.length)
      else none

/-- The ".rpm" suffix trimmed from the end chop. -/
def dotRpmSuffix : List Char := ['.', 'r', 'p', 'm']

/-- getBgName from internal/crane/crane_engine.go: splits the source rpm name
on dashes and re-joins parts[0:len(parts)-2]. When the split yields fewer
than two parts the slice bounds are out of range and Go panics. -/
def getBgName (srcrpm : List Char) : GoResult (List Char) :=
  let parts := splitOnChar '-' srcrpm
  if parts.length < 2 then
    .panicked "runtime error: slice bounds out of range"
  else
    .ok (intercalateChar '-' (parts.take (parts.length - 2)))

/-- One installed-package record as the rpm scanner reports it, with the
fields writeRPMManifest reads. -/
structure PackageInfo where
  name : List Char
  version : List Char
  release : List Char
  arch : List Char
  epoch : Int
  sourceRpm : List Char
  pgp : List Char
  summary : List Char
deriving DecidableEq, Repr

/-- pyxis.RPM, with the fields writeRPMManifest fills. -/
structure PyxisRPM where
  architecture : List Char
  gpg : List Char
  name : List Char
  nvra : List Char
  release : List Char
  srpmName : List Char
  srpmNevra : List Char
  summary : List Char
  version : List Char
deriving DecidableEq, Repr

/-- The body of the per-package loop of writeRPMManifest: when the package
has a source rpm, its base name (getBgName — which can panic), end chop and
nevra are computed; when it has PGP data, the key id is extracted; the
pyxis.RPM record is assembled with the nvra built by Sprintf
"%s-%s-%s.%s". -/
def buildRPM (packageInfo : PackageInfo) : GoResult PyxisRPM :=
  match (if packageInfo.sourceRpm.length > 0
         then getBgName packageInfo.sourceRpm
         else .ok []) with
  | .panicked m => .panicked m
  | .err m => .err m
  | .ok bgName =>
    let endChop :=
      if packageInfo.sourceRpm.length > 0 then
        trimPrefixL
          (trimSuffixL ((findDashDigitSuffix packageInfo.sourceRpm).getD [])
            dotRpmSuffix) ['-']
      else []
    let srpmNevra :=
      if packageInfo.sourceRpm.length > 0 then
        bgName ++ '-' :: (toString packageInfo.epoch).toList ++ ':' :: endChop
      else []
    let pgpKeyID :=
      if packageInfo.pgp.length > 0 then
        (afterLastMarker keyIDMarker packageInfo.pgp).getD []
      else []
    .ok { architecture := packageInfo.arch
          gpg := pgpKeyID
          name := packageInfo.name
          nvra := packageInfo.name ++ '-' :: packageInfo.version ++ '-' ::
            packageInfo.release ++ '.' :: packageInfo.arch
          release := packageInfo.release
          srpmName := bgName
          srpmNevra := srpmNevra
          summary := packageInfo.summary
          version := packageInfo.version }

/-- writeRPMManifest from internal/crane/crane_engine.go, over the package
list the rpm scan produced: converts each package in order to a pyxis.RPM,
propagating the first panic or error. -/
def writeRPMManifest : List PackageInfo → GoResult (List PyxisRPM)
  | [] => .ok []
  | packageInfo :: rest =>
    match buildRPM packageInfo with
    | .panicked m => .panicked m
    | .err m => .err m
    | .ok r =>
      match writeRPMManifest rest with
      | .panicked m => .panicked m
      | .err m => .err m
      | .ok rs => .ok (r :: rs)

/-- Splitting on a character that does not occur yields the whole string as
the single part. -/
theorem splitOnChar_not_mem (sep : Char) (s : List Char) (h : sep ∉ s) :
    splitOnChar sep s = [s] := by
  induction s with
  | nil => rfl
  | cons c rest ih =>
    have hc : ¬c = sep := fun e => h (e ▸ List.mem_cons_self c rest)
    have hr : sep ∉ rest := fun hm => h (List.mem_cons_of_mem c hm)
    simp [splitOnChar, hc, ih hr]

/-- A package whose source rpm name "abc" contains no dash. -/
def noHyphenPackage : PackageInfo :=
  { name := ['a', 'b', 'c']
    version := ['1']
    release := ['2']
    arch := ['x', '8', '6']
    epoch := 0
    sourceRpm := ['a', 'b', 'c']
    pgp := []
    summary := [] }

/-- C10: a non-empty source-rpm name must split into at least two
dash-separated parts — for any name without a dash the split has one part,
getBgName's parts[0:len(parts)-2] slice is out of bounds, and both it and
writeRPMManifest (here on a package list containing such a name) panic with
a slice-bounds error instead of returning an error. -/
theorem getBgName_panics_without_dash (srcrpm : List Char) (h : '-' ∉ srcrpm) :
    getBgName srcrpm = .panicked "runtime error: slice bounds out of range" ∧
    writeRPMManifest [noHyphenPackage] =
      .panicked "runtime error: slice bounds out of range" := by
  constructor
  · simp [getBgName, splitOnChar_not_mem '-' srcrpm h]
  · rfl

/-- Witness for C10 at the dash-free source rpm name "abc". -/
theorem getBgName_panics_without_dash_witness :
    getBgName ['a', 'b', 'c'] =
      .panicked "runtime error: slice bounds out of range" ∧
    writeRPMManifest [noHyphenPackage] =
      .panicked "runtime error: slice bounds out of range" :=
  getBgName_panics_without_dash ['a', 'b', 'c'] (by decide)

end ContainerCert
